import Mathlib

/-!
Verification of the JSONB entity service (`src/main.py`, `src/models.py`).

The development shallowly embeds the pure validation functions
(`validate_json_path`, `validate_json_string`), the JSON parser used by them
(Python's `json.loads`, default C scanner semantics), the query-filter builder
of the `GET /entities` handler (`read_entities`), and the row-update logic of
`PUT /entities/{entity_id}` (`update_entity`).  Stateful database code is
embedded as explicit state passing over a list of rows; HTTP exceptions are
embedded as the error side of `Except`.
-/

/-! ## Validator constants (src/main.py lines 29-32) -/

def MAX_JSON_PATH_DEPTH : Nat := 5

def MAX_JSON_VALUE_LENGTH : Nat := 1000

def MAX_JSON_CONTAINS_LENGTH : Nat := 5000

/-! ## The compiled regex `JSON_PATH_PATTERN = re.compile(r"^[a-zA-Z0-9_]+(\.[a-zA-Z0-9_]+)*$")` -/

/-- Membership in the character class `[a-zA-Z0-9_]` (ASCII only, as written
in the pattern). -/
def isWordChar (c : Char) : Bool :=
  c.isAlpha || c.isDigit || c == '_'

/-- Splitting a character list on `'.'`, with the semantics of Python
`str.split(".")` (and of `String.splitOn "."`): the empty list of characters
yields one empty segment, and consecutive dots yield empty segments. -/
def splitOnDot : List Char → List (List Char)
  | [] => [[]]
  | c :: cs =>
    if c = '.' then [] :: splitOnDot cs
    else
      match splitOnDot cs with
      | [] => [[c]]
      | s :: rest => (c :: s) :: rest

/-- The language of the regex body `[a-zA-Z0-9_]+(\.[a-zA-Z0-9_]+)*` fully
anchored at both ends: one or more dot-separated segments, each a non-empty
run of word characters. -/
def purePat (cs : List Char) : Bool :=
  (splitOnDot cs).all (fun seg => !seg.isEmpty && seg.all isWordChar)

/-- Removes a single trailing `'\n'` if present.  Python's `$` anchor (without
`re.MULTILINE`) matches at the end of the string and also just before a
newline that is the last character, so `re.match` of the anchored pattern
accepts exactly the strings whose body after this strip is in the pattern's
language (a newline can occur nowhere else, since it is neither a word
character nor a dot). -/
def stripTrailingNl (cs : List Char) : List Char :=
  match cs.reverse with
  | '\n' :: rest => rest.reverse
  | _ => cs

/-- Embedding of `JSON_PATH_PATTERN.match(path)` being truthy
(src/main.py line 39). -/
def re_match_json_path (path : String) : Bool :=
  purePat (stripTrailingNl path.data)

/-! ## `validate_json_path` (src/main.py lines 35-43) -/

/-- Embedding of `validate_json_path`.  `not path` is Python string
truthiness (empty ⇒ falsy); `len(path)` and `path.count(".")` count
characters (code points). -/
def validate_json_path (path : String) : Bool :=
  if path.data.isEmpty || path.data.length > 100 then false
  else if !(re_match_json_path path) then false
  else if path.data.count '.' > MAX_JSON_PATH_DEPTH then false
  else true

/-- The acceptance predicate exactly as claim C1 (and spec §8) states it:
non-empty, length at most 100, matches the pattern
`^[A-Za-z0-9_]+(\.[A-Za-z0-9_]+)*$` (segments of ASCII letters, digits or
underscore joined by single dots), and at most 5 dots. -/
def c1_spec_accepts (p : String) : Bool :=
  !p.data.isEmpty && p.data.length ≤ 100 && purePat p.data &&
    p.data.count '.' ≤ 5

example : validate_json_path "a.b.c.d.e.f" = true := by decide
example : validate_json_path "a.b.c.d.e.f.g" = false := by decide
example : validate_json_path "a\n" = true := by decide
example : c1_spec_accepts "a\n" = false := by decide

/-! ## Embedding of `json.loads` (Python `json` module, default strict decoder)

Only syntactic acceptance and the structure of the parsed document matter to
the service (the parsed object is handed opaquely to the JSONB `contains`
operator), so numbers are kept as their lexeme and string escape sequences
are validated but left undecoded.  Recursion is bounded by a fuel argument;
`json_loads` supplies fuel that is ample for its input (every recursive call
both spends one unit of fuel and only ever proceeds on a strict suffix of the
input).  Python's recursion limit (`RecursionError` on extremely nested
documents) is a machine resource bound and is not modelled. -/

/-- A parsed JSON document as produced by `json.loads`. -/
inductive PyJson where
  | null
  | bool (b : Bool)
  | num (lexeme : String)
  | str (s : String)
  | arr (elems : List PyJson)
  | obj (members : List (String × PyJson))

/-- JSON whitespace, Python `json.decoder.WHITESPACE_STR`: space, tab,
newline, carriage return. -/
def isJsonWs (c : Char) : Bool :=
  c == ' ' || c == '\t' || c == '\n' || c == '\r'

def skipWs : List Char → List Char
  | [] => []
  | c :: cs => if isJsonWs c then skipWs cs else c :: cs

/-- Hexadecimal digit, for `\uXXXX` escapes (the default C scanner requires
exactly four hex digits). -/
def isHexDigit (c : Char) : Bool :=
  c.isDigit || ('a' ≤ c && c ≤ 'f') || ('A' ≤ c && c ≤ 'F')

/-- Scans a JSON string body starting just after the opening quote: returns
the (undecoded) content characters and the remainder after the closing
quote.  Unescaped control characters (code point < 0x20) are rejected, as in
the default strict mode. -/
def parseStringBody : List Char → Option (List Char × List Char)
  | [] => none
  | c :: cs =>
    if c = '"' then some ([], cs)
    else if c = '\\' then
      match cs with
      | [] => none
      | e :: cs2 =>
        if e = 'u' then
          match cs2 with
          | a :: b :: c3 :: d :: cs3 =>
            if isHexDigit a && isHexDigit b && isHexDigit c3 && isHexDigit d then
              match parseStringBody cs3 with
              | some (content, rest) =>
                some ('\\' :: 'u' :: a :: b :: c3 :: d :: content, rest)
              | none => none
            else none
          | _ => none
        else if e = '"' || e = '\\' || e = '/' || e = 'b' || e = 'f' ||
            e = 'n' || e = 'r' || e = 't' then
          match parseStringBody cs2 with
          | some (content, rest) => some ('\\' :: e :: content, rest)
          | none => none
        else none
    else if c.toNat < 0x20 then none
    else
      match parseStringBody cs with
      | some (content, rest) => some (c :: content, rest)
      | none => none

/-- Longest digit prefix. -/
def takeDigits : List Char → List Char × List Char
  | [] => ([], [])
  | c :: cs =>
    if c.isDigit then
      let (d, r) := takeDigits cs
      (c :: d, r)
    else ([], c :: cs)

/-- The integer part `(0|[1-9][0-9]*)` of the number regex. -/
def parseIntPart : List Char → Option (List Char × List Char)
  | [] => none
  | c :: cs =>
    if c = '0' then some (['0'], cs)
    else if c.isDigit then
      let (d, r) := takeDigits cs
      some (c :: d, r)
    else none

/-- The optional fraction group `(\.[0-9]+)?`: consumes nothing when it does
not match. -/
def parseFrac (cs : List Char) : List Char × List Char :=
  match cs with
  | '.' :: cs2 =>
    match takeDigits cs2 with
    | ([], _) => ([], cs)
    | (d, r) => ('.' :: d, r)
  | _ => ([], cs)

/-- The optional exponent group `([eE][-+]?[0-9]+)?`: consumes nothing when
it does not match. -/
def parseExp (cs : List Char) : List Char × List Char :=
  match cs with
  | e :: rest =>
    if e = 'e' || e = 'E' then
      let (sgn, rest2) :=
        match rest with
        | s :: r2 => if s = '+' || s = '-' then ([s], r2) else (([] : List Char), rest)
        | [] => ([], rest)
      match takeDigits rest2 with
      | ([], _) => ([], cs)
      | (d, r) => (e :: (sgn ++ d), r)
    else ([], cs)
  | [] => ([], cs)

/-- The number regex `(-?(?:0|[1-9]\d*))(\.\d+)?([eE][-+]?\d+)?` matched at
the current position (a prefix match, as `re` does for the scanner). -/
def parseNumber (cs : List Char) : Option (String × List Char) :=
  let (neg, cs1) :=
    match cs with
    | '-' :: r => (['-'], r)
    | _ => (([] : List Char), cs)
  match parseIntPart cs1 with
  | none => none
  | some (ip, cs2) =>
    let (fp, cs3) := parseFrac cs2
    let (ep, cs4) := parseExp cs3
    some (String.mk (neg ++ ip ++ fp ++ ep), cs4)

mutual

/-- `scan_once`: parses a single JSON value at the current position (no
leading whitespace skip, exactly as in the scanner). -/
def parseValue : Nat → List Char → Option (PyJson × List Char)
  | 0, _ => none
  | fuel + 1, cs =>
    match cs with
    | '"' :: rest => (parseStringBody rest).map (fun p => (.str (String.mk p.1), p.2))
    | '{' :: rest => parseObjectAfterBrace fuel rest
    | '[' :: rest => parseArrayAfterBracket fuel rest
    | 'n' :: 'u' :: 'l' :: 'l' :: rest => some (.null, rest)
    | 't' :: 'r' :: 'u' :: 'e' :: rest => some (.bool true, rest)
    | 'f' :: 'a' :: 'l' :: 's' :: 'e' :: rest => some (.bool false, rest)
    | 'N' :: 'a' :: 'N' :: rest => some (.num "NaN", rest)
    | 'I' :: 'n' :: 'f' :: 'i' :: 'n' :: 'i' :: 't' :: 'y' :: rest =>
      some (.num "Infinity", rest)
    | '-' :: 'I' :: 'n' :: 'f' :: 'i' :: 'n' :: 'i' :: 't' :: 'y' :: rest =>
      some (.num "-Infinity", rest)
    | _ => (parseNumber cs).map (fun p => (.num p.1, p.2))

/-- Object parsing after the opening brace: whitespace, then either the
closing brace or a double-quoted first key. -/
def parseObjectAfterBrace : Nat → List Char → Option (PyJson × List Char)
  | 0, _ => none
  | fuel + 1, cs =>
    match skipWs cs with
    | '}' :: rest => some (.obj [], rest)
    | '"' :: rest =>
      match parseMembers fuel rest with
      | some (ms, rest2) => some (.obj ms, rest2)
      | none => none
    | _ => none

/-- Member list parsing, entered just after the opening quote of a key:
key, whitespace, colon, whitespace, value, then either the closing brace or
a comma, whitespace and the quote of the next key. -/
def parseMembers : Nat → List Char → Option (List (String × PyJson) × List Char)
  | 0, _ => none
  | fuel + 1, cs =>
    match parseStringBody cs with
    | none => none
    | some (k, cs2) =>
      match skipWs cs2 with
      | ':' :: cs3 =>
        match parseValue fuel (skipWs cs3) with
        | none => none
        | some (v, cs4) =>
          match skipWs cs4 with
          | '}' :: rest => some ([(String.mk k, v)], rest)
          | ',' :: cs5 =>
            match skipWs cs5 with
            | '"' :: cs6 =>
              match parseMembers fuel cs6 with
              | some (ms, rest) => some ((String.mk k, v) :: ms, rest)
              | none => none
            | _ => none
          | _ => none
      | _ => none

/-- Array parsing after the opening bracket: whitespace, then either the
closing bracket or the elements. -/
def parseArrayAfterBracket : Nat → List Char → Option (PyJson × List Char)
  | 0, _ => none
  | fuel + 1, cs =>
    match skipWs cs with
    | ']' :: rest => some (.arr [], rest)
    | cs1 =>
      match parseElements fuel cs1 with
      | some (vs, rest) => some (.arr vs, rest)
      | none => none

/-- Element list parsing: value, whitespace, then the closing bracket or a
comma, whitespace and the next element. -/
def parseElements : Nat → List Char → Option (List PyJson × List Char)
  | 0, _ => none
  | fuel + 1, cs =>
    match parseValue fuel cs with
    | none => none
    | some (v, cs2) =>
      match skipWs cs2 with
      | ']' :: rest => some ([v], rest)
      | ',' :: cs3 =>
        match parseElements fuel (skipWs cs3) with
        | some (vs, rest) => some (v :: vs, rest)
        | none => none
      | _ => none

end

/-- Embedding of `json.loads(s)` succeeding: skip leading whitespace, parse
one value, skip trailing whitespace, and require the input to be exhausted
("Extra data" otherwise). -/
def json_loads (s : String) : Option PyJson :=
  match parseValue (8 * (s.data.length + 2)) (skipWs s.data) with
  | some (v, rest) => if skipWs rest = [] then some v else none
  | none => none

/-! ## `validate_json_string` (src/main.py lines 46-56) -/

/-- Embedding of `validate_json_string`: `not json_str` is string
truthiness; the `try json.loads / except JSONDecodeError` is success of the
parse. -/
def validate_json_string (json_str : String)
    (max_length : Nat := MAX_JSON_CONTAINS_LENGTH) : Bool :=
  if json_str.data.isEmpty || json_str.data.length > max_length then false
  else (json_loads json_str).isSome

example : validate_json_string "[1, 2, 3]" = true := by decide
example : validate_json_string "[1, 2," = false := by decide
example : validate_json_string "" = false := by decide
example : validate_json_string "nul" = false := by decide
example : (json_loads " [true, null, -1.5e3, \"a\\n\"] ").isSome = true := by decide
example : (json_loads "[1] 1").isSome = false := by decide
example : (json_loads "[1,]").isSome = false := by decide

/-! ## The `GET /entities` filter builder (src/main.py lines 112-199)

The handler body up to the `db.execute(stmt)` call is pure: it either raises
an `HTTPException` (embedded as the `Except.error` side, carrying status code
and detail) or assembles the list of SQLAlchemy filter expressions that are
then ANDed onto the statement.  A successful run is embedded as the composed
query — the filter list in append order plus the pagination window — so an
error result, by construction, reaches no query execution. -/

/-- An `HTTPException(status_code=..., detail=...)`. -/
structure HErr where
  status_code : Nat
  detail : String
deriving DecidableEq

/-- A JSONB column expression: `Entity.data` or `column[key]` navigation. -/
inductive JCol where
  | data
  | index (base : JCol) (key : String)
deriving DecidableEq

/-- A SQLAlchemy filter expression appended to `filters`. -/
inductive JFilter where
  /-- `column[key].astext == value` -/
  | astextEq (base : JCol) (key : String) (value : String)
  /-- `Entity.data.contains(json_obj)` -/
  | containsObj (obj : PyJson)
  /-- `column.has_key(key)` -/
  | hasKey (base : JCol) (key : String)

/-- The handler's query parameters, after FastAPI extraction. -/
structure ListParams where
  skip : Nat
  limit : Nat
  json_path : Option String
  json_value : Option String
  json_contains : Option String
  json_key_exists : Option String

/-- The executed query: composed filters (ANDed, in append order) plus the
pagination window. -/
structure QueryExec where
  filters : List JFilter
  skip : Nat
  limit : Nat

/-- Python truthiness of an `Optional[str]`: `None` and the empty string are
falsy. -/
def truthy : Option String → Bool
  | none => false
  | some s => !s.data.isEmpty

/-- Python `path.split(".")` as a list of strings. -/
def splitOnDotStr (s : String) : List String :=
  (splitOnDot s.data).map String.mk

/-- The `if json_path and json_value:` block (src/main.py lines 134-150). -/
def pathValueFilters (json_path json_value : Option String) :
    Except HErr (List JFilter) :=
  if truthy json_path && truthy json_value then
    let path := json_path.getD ""
    let value := json_value.getD ""
    if !validate_json_path path then
      .error ⟨400, "Invalid JSON path format"⟩
    else if value.data.length > MAX_JSON_VALUE_LENGTH then
      .error ⟨400, "JSON value too long"⟩
    else if path.data.contains '.' then
      let path_parts := splitOnDotStr path
      let json_column := path_parts.dropLast.foldl JCol.index JCol.data
      .ok [.astextEq json_column (path_parts.getLastD "") value]
    else
      .ok [.astextEq JCol.data path value]
  else .ok []

/-- The `if json_contains:` block (src/main.py lines 152-164). -/
def containsFilters (json_contains : Option String) :
    Except HErr (List JFilter) :=
  if truthy json_contains then
    let s := json_contains.getD ""
    if !validate_json_string s then
      .error ⟨400, "Invalid JSON format or too long"⟩
    else
      match json_loads s with
      | some obj => .ok [.containsObj obj]
      | none => .error ⟨400, "Invalid JSON in json_contains"⟩
  else .ok []

/-- The `if json_key_exists:` block (src/main.py lines 166-184). -/
def keyExistsFilters (json_key_exists : Option String) :
    Except HErr (List JFilter) :=
  if truthy json_key_exists then
    let k := json_key_exists.getD ""
    if !validate_json_path k then
      .error ⟨400, "Invalid JSON key path format"⟩
    else if k.data.contains '.' then
      let path_parts := splitOnDotStr k
      if path_parts.length = 2 then
        .ok [.hasKey (JCol.index JCol.data (path_parts.getD 0 ""))
              (path_parts.getD 1 "")]
      else .error ⟨400, "Nested key check supports only one level"⟩
    else .ok [.hasKey JCol.data k]
  else .ok []

/-- The three filter blocks in source order; a raised exception aborts the
rest of the handler. -/
def read_entities_filters (p : ListParams) : Except HErr (List JFilter) :=
  match pathValueFilters p.json_path p.json_value with
  | .error e => .error e
  | .ok f1 =>
    match containsFilters p.json_contains with
    | .error e => .error e
    | .ok f2 =>
      match keyExistsFilters p.json_key_exists with
      | .error e => .error e
      | .ok f3 => .ok (f1 ++ f2 ++ f3)

/-- Embedding of the `read_entities` handler: build the filters, then
execute the statement with the composed AND of the filters and the
`skip`/`limit` window.  The `db.execute` happens only after every filter
block has run, so the error side carries no query. -/
def read_entities (p : ListParams) : Except HErr QueryExec :=
  match read_entities_filters p with
  | .error e => .error e
  | .ok fs => .ok ⟨fs, p.skip, p.limit⟩

/-! ## The entity table and `update_entity` (src/main.py lines 202-217)

A database state is a list of rows of the `entities` table
(src/models.py); `id` is the primary key, so a valid state never holds two
rows with the same id, and `scalar_one_or_none` is the first match. -/

/-- A persisted row of the `entities` table. -/
structure StoredEntity where
  id : Int
  created_at : Int
  created_by : String
  data : PyJson

/-- The `EntityCreate` request body (src/models.py): `created_by` and
`data`. -/
structure EntityCreate where
  created_by : String
  data : PyJson

/-- Embedding of the `PUT /entities/{entity_id}` handler: look the row up by
id (404 when absent), overwrite its `created_by` and `data` fields in place,
commit, and return the refreshed row.  The in-place ORM mutation is embedded
as a map over the rows touching exactly the rows with the given id. -/
def update_entity (db : List StoredEntity) (entity_id : Int)
    (entity_update : EntityCreate) :
    Except HErr (List StoredEntity × StoredEntity) :=
  match db.find? (fun e => e.id == entity_id) with
  | none => .error ⟨404, "Entity not found"⟩
  | some e =>
    let e' : StoredEntity :=
      { e with created_by := entity_update.created_by,
               data := entity_update.data }
    .ok (db.map (fun x =>
          if x.id == entity_id then
            { x with created_by := entity_update.created_by,
                     data := entity_update.data }
          else x),
         e')

example :
    read_entities ⟨0, 100, some "b.c", some "2", none, none⟩ =
      .ok ⟨[.astextEq (JCol.index JCol.data "b") "c" "2"], 0, 100⟩ := rfl
example :
    read_entities ⟨0, 100, none, none, none, some "b.c.d"⟩ =
      .error ⟨400, "Nested key check supports only one level"⟩ := rfl
example :
    read_entities ⟨0, 100, none, none, some "[bad", none⟩ =
      .error ⟨400, "Invalid JSON format or too long"⟩ := rfl
example :
    read_entities ⟨0, 100, none, none, none, some ""⟩ = .ok ⟨[], 0, 100⟩ := rfl

/-! ## Claim theorems -/

/-- C1, counterexample.  The claim states that `validate_json_path` accepts
exactly the non-empty strings of length at most 100 that match
`^[A-Za-z0-9_]+(\.[A-Za-z0-9_]+)*$` with at most 5 dots.  The string
`"a\n"` refutes it: Python's `$` anchor also matches just before a trailing
newline, so the code accepts a string the claimed pattern rejects. -/
theorem c1_counterexample :
    validate_json_path "a\n" = true ∧ c1_spec_accepts "a\n" = false := by
  decide

/-- C1 (amended): `validate_json_path p` is true iff `p` is non-empty, has
length at most 100, matches the pattern
`^[A-Za-z0-9_]+(\.[A-Za-z0-9_]+)*$` after dropping one trailing newline if
present (an artifact of Python's `$` anchor), and contains at most 5 dot
characters. -/
theorem c1_validate_json_path_amended (p : String) :
    validate_json_path p = true ↔
      (p ≠ "" ∧ p.length ≤ 100 ∧ purePat (stripTrailingNl p.data) = true ∧
        p.data.count '.' ≤ 5) := by
  have hemp : (p = "") ↔ p.data = [] := String.ext_iff
  have hlen : p.length = p.data.length := rfl
  unfold validate_json_path re_match_json_path MAX_JSON_PATH_DEPTH
  by_cases h1 : p.data = [] <;> by_cases h2 : p.data.length ≤ 100 <;>
    by_cases h3 : purePat (stripTrailingNl p.data) = true <;>
    by_cases h4 : p.data.count '.' ≤ 5 <;>
    simp_all [List.isEmpty_iff]

/-- C2: `validate_json_string s m` is true iff `s` is non-empty, has length
at most `m`, and parses as syntactically valid JSON (i.e. `json.loads`
succeeds on it). -/
theorem c2_validate_json_string_spec (s : String) (m : Nat) :
    validate_json_string s m = true ↔
      (s ≠ "" ∧ s.length ≤ m ∧ (json_loads s).isSome = true) := by
  have hemp : (s = "") ↔ s.data = [] := String.ext_iff
  have hlen : s.length = s.data.length := rfl
  unfold validate_json_string
  by_cases h1 : s.data = [] <;> by_cases h2 : s.data.length ≤ m <;>
    simp_all [List.isEmpty_iff]

/-! ### Helper lemmas about the filter blocks -/

lemma validate_isSome {s : String} {m : Nat}
    (h : validate_json_string s m = true) : (json_loads s).isSome = true := by
  unfold validate_json_string at h
  split at h
  · exact absurd h (by simp)
  · exact h

lemma pathValueFilters_error {jp jv : Option String} {e : HErr}
    (h : pathValueFilters jp jv = .error e) :
    e = ⟨400, "Invalid JSON path format"⟩ ∨ e = ⟨400, "JSON value too long"⟩ := by
  simp only [pathValueFilters] at h
  split at h
  · split at h
    · exact Or.inl (Except.error.inj h).symm
    · split at h
      · exact Or.inr (Except.error.inj h).symm
      · split at h <;> exact Except.noConfusion h
  · exact Except.noConfusion h

lemma containsFilters_error {jc : Option String} {e : HErr}
    (h : containsFilters jc = .error e) :
    e = ⟨400, "Invalid JSON format or too long"⟩ := by
  simp only [containsFilters] at h
  split at h
  · split at h
    · exact (Except.error.inj h).symm
    · rename_i hvalid
      have hv : validate_json_string (jc.getD "") = true := by
        revert hvalid; cases validate_json_string (jc.getD "") <;> simp
      have hsome := validate_isSome hv
      split at h
      · exact Except.noConfusion h
      · rename_i hnone
        rw [hnone] at hsome
        exact absurd hsome (by simp)
  · exact Except.noConfusion h

lemma keyExistsFilters_error {jke : Option String} {e : HErr}
    (h : keyExistsFilters jke = .error e) :
    e = ⟨400, "Invalid JSON key path format"⟩ ∨
      e = ⟨400, "Nested key check supports only one level"⟩ := by
  simp only [keyExistsFilters] at h
  split at h
  · split at h
    · exact Or.inl (Except.error.inj h).symm
    · split at h
      · split at h
        · exact Except.noConfusion h
        · exact Or.inr (Except.error.inj h).symm
      · exact Except.noConfusion h
  · exact Except.noConfusion h

lemma pathValueFilters_skip_left (jv : Option String) :
    pathValueFilters none jv = .ok [] := by
  simp [pathValueFilters, truthy]

lemma pathValueFilters_skip_right (jp : Option String) :
    pathValueFilters jp none = .ok [] := by
  simp [pathValueFilters, truthy]

/-- C3: when exactly one of `json_path` and `json_value` is supplied, the
pair filter is silently skipped: the handler behaves exactly as if neither
were supplied, and with no other filter parameter it returns the unfiltered
page — regardless of the validity of the supplied value. -/
theorem c3_lone_path_or_value_skipped (p : ListParams)
    (h : (p.json_path ≠ none ∧ p.json_value = none) ∨
         (p.json_path = none ∧ p.json_value ≠ none)) :
    read_entities p =
      read_entities { p with json_path := none, json_value := none } ∧
    (p.json_contains = none → p.json_key_exists = none →
      read_entities p = .ok ⟨[], p.skip, p.limit⟩) := by
  have hpv : pathValueFilters p.json_path p.json_value = .ok [] := by
    rcases h with ⟨_, hv⟩ | ⟨hp, _⟩
    · rw [hv]; exact pathValueFilters_skip_right _
    · rw [hp]; exact pathValueFilters_skip_left _
  constructor
  · simp only [read_entities, read_entities_filters, hpv,
      pathValueFilters_skip_left]
  · intro hc hk
    simp [read_entities, read_entities_filters, hpv, hc, hk,
      containsFilters, keyExistsFilters, truthy]

/-- C10: supplying `json_contains` or `json_key_exists` as the empty string
is treated exactly as omitting the parameter — no validation, no error, no
predicate — even though each validator rejects the empty string. -/
theorem c10_empty_string_treated_as_absent (p : ListParams) :
    read_entities { p with json_contains := some "" } =
      read_entities { p with json_contains := none } ∧
    read_entities { p with json_key_exists := some "" } =
      read_entities { p with json_key_exists := none } ∧
    validate_json_string "" 5000 = false ∧ validate_json_path "" = false := by
  refine ⟨?_, ?_, by decide, by decide⟩
  · have h1 : containsFilters (some "") = .ok [] := rfl
    have h2 : containsFilters (none : Option String) = .ok [] := rfl
    cases hpv : pathValueFilters p.json_path p.json_value <;>
      simp [read_entities, read_entities_filters, hpv, h1, h2]
  · have h1 : keyExistsFilters (some "") = .ok [] := rfl
    have h2 : keyExistsFilters (none : Option String) = .ok [] := rfl
    cases hpv : pathValueFilters p.json_path p.json_value <;>
      cases hc : containsFilters p.json_contains <;>
      simp [read_entities, read_entities_filters, hpv, hc, h1, h2]

/-- C5: a validation failure in any filter block aborts the whole request as
a client-facing 400 whose detail names the failed check, and the error side
carries no executed query; on success every appended filter from every block
is applied — never a partial subset. -/
theorem c5_no_partial_filter_application (p : ListParams) :
    (∀ e : HErr, read_entities p = .error e →
      e.status_code = 400 ∧
        (e.detail = "Invalid JSON path format" ∨
         e.detail = "JSON value too long" ∨
         e.detail = "Invalid JSON format or too long" ∨
         e.detail = "Invalid JSON in json_contains" ∨
         e.detail = "Invalid JSON key path format" ∨
         e.detail = "Nested key check supports only one level")) ∧
    (∀ q : QueryExec, read_entities p = .ok q →
      ∃ f1 f2 f3, pathValueFilters p.json_path p.json_value = .ok f1 ∧
        containsFilters p.json_contains = .ok f2 ∧
        keyExistsFilters p.json_key_exists = .ok f3 ∧
        q.filters = f1 ++ f2 ++ f3 ∧ q.skip = p.skip ∧ q.limit = p.limit) := by
  constructor
  · intro e he
    simp only [read_entities, read_entities_filters] at he
    cases hpv : pathValueFilters p.json_path p.json_value with
    | error e1 =>
      simp only [hpv] at he
      have h1 : e1 = e := Except.error.inj he
      subst h1
      rcases pathValueFilters_error hpv with h | h <;> rw [h] <;>
        exact ⟨rfl, by simp⟩
    | ok f1 =>
      cases hc : containsFilters p.json_contains with
      | error e2 =>
        simp only [hpv, hc] at he
        have h1 : e2 = e := Except.error.inj he
        subst h1
        rw [containsFilters_error hc]
        exact ⟨rfl, by simp⟩
      | ok f2 =>
        cases hk : keyExistsFilters p.json_key_exists with
        | error e3 =>
          simp only [hpv, hc, hk] at he
          have h1 : e3 = e := Except.error.inj he
          subst h1
          rcases keyExistsFilters_error hk with h | h <;> rw [h] <;>
            exact ⟨rfl, by simp⟩
        | ok f3 =>
          simp only [hpv, hc, hk] at he
          exact Except.noConfusion he
  · intro q hq
    simp only [read_entities, read_entities_filters] at hq
    cases hpv : pathValueFilters p.json_path p.json_value with
    | error e1 => simp only [hpv] at hq; exact Except.noConfusion hq
    | ok f1 =>
      cases hc : containsFilters p.json_contains with
      | error e2 => simp only [hpv, hc] at hq; exact Except.noConfusion hq
      | ok f2 =>
        cases hk : keyExistsFilters p.json_key_exists with
        | error e3 => simp only [hpv, hc, hk] at hq; exact Except.noConfusion hq
        | ok f3 =>
          simp only [hpv, hc, hk] at hq
          have h1 := Except.ok.inj hq
          exact ⟨f1, f2, f3, rfl, rfl, rfl, by rw [← h1], by rw [← h1],
            by rw [← h1]⟩

/-- C9 (implicit): a `json_contains` value that passes
`validate_json_string` always parses again inside the filter block, so the
secondary "Invalid JSON in json_contains" branch is unreachable and a
supplied `json_contains` is rejected exactly when `validate_json_string`
rejects it. -/
theorem c9_contains_reparse_never_fails :
    (∀ s : String, validate_json_string s 5000 = true →
        (json_loads s).isSome = true) ∧
    (∀ jc : String,
        (∃ e, containsFilters (some jc) = .error e) ↔
          (jc ≠ "" ∧ validate_json_string jc 5000 = false)) ∧
    (∀ p : ListParams,
        read_entities p ≠ .error ⟨400, "Invalid JSON in json_contains"⟩) := by
  refine ⟨?_, ?_, ?_⟩
  · intro s h
    exact validate_isSome h
  · intro jc
    constructor
    · rintro ⟨e, he⟩
      simp only [containsFilters] at he
      split at he
      · rename_i htr
        have hne : jc ≠ "" := by
          intro hjc
          rw [hjc] at htr
          exact absurd htr (by decide)
        split at he
        · rename_i hval
          refine ⟨hne, ?_⟩
          revert hval
          simp only [Option.getD, MAX_JSON_CONTAINS_LENGTH]
          cases validate_json_string jc 5000 <;> simp
        · rename_i hval
          exact absurd he (by
            have hvv : validate_json_string ((some jc).getD "") = true := by
              revert hval
              cases validate_json_string ((some jc).getD "") <;> simp
            have hsome := validate_isSome hvv
            split
            · exact fun hcon => Except.noConfusion hcon
            · rename_i hnone
              rw [hnone] at hsome
              exact absurd hsome (by simp))
      · exact absurd he (by exact fun hcon => Except.noConfusion hcon)
    · rintro ⟨hne, hval⟩
      have hdata : jc.data ≠ [] := by
        intro hd
        exact hne (String.ext_iff.mpr hd)
      have ht : truthy (some jc) = true := by
        cases hd : jc.data with
        | nil => exact absurd hd hdata
        | cons a l => simp [truthy, hd]
      refine ⟨⟨400, "Invalid JSON format or too long"⟩, ?_⟩
      simp [containsFilters, ht, MAX_JSON_CONTAINS_LENGTH, hval]
  · intro p hp
    simp only [read_entities, read_entities_filters] at hp
    cases hpv : pathValueFilters p.json_path p.json_value with
    | error e1 =>
      simp only [hpv] at hp
      have h1 := Except.error.inj hp
      rcases pathValueFilters_error hpv with h | h <;> rw [h] at h1 <;>
        exact absurd h1 (by decide)
    | ok f1 =>
      cases hc : containsFilters p.json_contains with
      | error e2 =>
        simp only [hpv, hc] at hp
        have h1 := Except.error.inj hp
        rw [containsFilters_error hc] at h1
        exact absurd h1 (by decide)
      | ok f2 =>
        cases hk : keyExistsFilters p.json_key_exists with
        | error e3 =>
          simp only [hpv, hc, hk] at hp
          have h1 := Except.error.inj hp
          rcases keyExistsFilters_error hk with h | h <;> rw [h] at h1 <;>
            exact absurd h1 (by decide)
        | ok f3 =>
          simp only [hpv, hc, hk] at hp
          exact Except.noConfusion hp

lemma truthy_some {k : String} (hne : k ≠ "") : truthy (some k) = true := by
  have hd : k.data ≠ [] := fun hd => hne (String.ext_iff.mpr hd)
  cases h : k.data with
  | nil => exact absurd h hd
  | cons a l => simp [truthy, h]

/-- C4, counterexample.  The claim quantifies over every supplied
`json_key_exists`; supplying it as the empty string falsifies the first
clause: the empty string fails `validate_json_path`, yet the request is not
rejected — the falsy parameter is skipped and the unfiltered page is
returned. -/
theorem c4_counterexample :
    read_entities ⟨0, 100, none, none, none, some ""⟩ = .ok ⟨[], 0, 100⟩ ∧
      validate_json_path "" = false :=
  ⟨rfl, by decide⟩

/-- C4 (amended): for every supplied **non-empty** `json_key_exists` (in a
request whose earlier filter blocks do not fail): an invalid path is
rejected with the invalid-key-path error; a valid dotted path is rejected
with the distinct nesting-too-deep error unless it has exactly 2 segments,
in which case the predicate `data[segment 0] has_key segment 1` is appended;
a valid dot-free path appends the top-level `has_key` predicate. -/
theorem c4_key_exists_amended (p : ListParams) (k : String)
    (f1 f2 : List JFilter)
    (hk : p.json_key_exists = some k) (hne : k ≠ "")
    (h1 : pathValueFilters p.json_path p.json_value = .ok f1)
    (h2 : containsFilters p.json_contains = .ok f2) :
    (validate_json_path k = false →
      read_entities p = .error ⟨400, "Invalid JSON key path format"⟩) ∧
    (validate_json_path k = true → k.data.contains '.' = true →
      (((splitOnDotStr k).length = 2 →
        read_entities p = .ok ⟨f1 ++ f2 ++
          [.hasKey (JCol.index JCol.data ((splitOnDotStr k).getD 0 ""))
            ((splitOnDotStr k).getD 1 "")], p.skip, p.limit⟩) ∧
       ((splitOnDotStr k).length ≠ 2 →
        read_entities p =
          .error ⟨400, "Nested key check supports only one level"⟩))) ∧
    (validate_json_path k = true → k.data.contains '.' = false →
      read_entities p =
        .ok ⟨f1 ++ f2 ++ [.hasKey JCol.data k], p.skip, p.limit⟩) := by
  have ht := truthy_some hne
  refine ⟨?_, fun hval hdot => ⟨?_, ?_⟩, ?_⟩
  · intro hval
    have hke : keyExistsFilters (some k) =
        .error ⟨400, "Invalid JSON key path format"⟩ := by
      simp [keyExistsFilters, ht, hval]
    simp only [read_entities, read_entities_filters, hk, h1, h2, hke]
  · intro hlen
    have hdotm : '.' ∈ k.data := by simpa using hdot
    have hke : keyExistsFilters (some k) =
        .ok [.hasKey (JCol.index JCol.data ((splitOnDotStr k).getD 0 ""))
          ((splitOnDotStr k).getD 1 "")] := by
      simp [keyExistsFilters, ht, hval, hdotm, hlen]
    simp only [read_entities, read_entities_filters, hk, h1, h2, hke]
  · intro hlen
    have hdotm : '.' ∈ k.data := by simpa using hdot
    have hke : keyExistsFilters (some k) =
        .error ⟨400, "Nested key check supports only one level"⟩ := by
      simp [keyExistsFilters, ht, hval, hdotm, hlen]
    simp only [read_entities, read_entities_filters, hk, h1, h2, hke]
  · intro hval hdot
    have hdotm : '.' ∉ k.data := by simpa using hdot
    have hke : keyExistsFilters (some k) = .ok [.hasKey JCol.data k] := by
      simp [keyExistsFilters, ht, hval, hdotm]
    simp only [read_entities, read_entities_filters, hk, h1, h2, hke]

theorem c4_witness :
    read_entities ⟨0, 100, none, none, none, some "a.b"⟩ =
      .ok ⟨[.hasKey (JCol.index JCol.data "a") "b"], 0, 100⟩ :=
  ((c4_key_exists_amended ⟨0, 100, none, none, none, some "a.b"⟩ "a.b" [] []
    rfl (by decide) rfl rfl).2.1 (by decide) (by decide)).1 (by decide)

/-- C6, counterexample.  The claim quantifies over every request supplying
both `json_path` and `json_value` with a path that passes validation;
supplying `json_value` as the empty string falsifies it: the pair block is
skipped (Python truthiness) and no equality predicate is appended. -/
theorem c6_counterexample :
    read_entities ⟨0, 100, some "a", some "", none, none⟩ =
        .ok ⟨[], 0, 100⟩ ∧
      validate_json_path "a" = true :=
  ⟨rfl, by decide⟩

/-- C6 (amended): for every request supplying both `json_path` and a
**non-empty** `json_value` **of at most 1000 characters**, where the path
passes validation: a dotted path is split into segments, the builder
descends through all but the last segment, and a predicate equating the
final segment's text value with `json_value` is appended; a dot-free path
appends the top-level text-equality predicate. -/
theorem c6_path_value_filter_amended (jp jv : String)
    (hjp : jp ≠ "") (hjv : jv ≠ "")
    (hval : validate_json_path jp = true) (hlen : jv.length ≤ 1000) :
    pathValueFilters (some jp) (some jv) =
      .ok [if jp.data.contains '.' then
            .astextEq ((splitOnDotStr jp).dropLast.foldl JCol.index JCol.data)
              ((splitOnDotStr jp).getLastD "") jv
          else .astextEq JCol.data jp jv] := by
  have hlen' : ¬1000 < jv.length := by omega
  by_cases hdot : '.' ∈ jp.data <;>
    simp [pathValueFilters, truthy_some hjp, truthy_some hjv, hval,
      MAX_JSON_VALUE_LENGTH, hlen', hdot]

theorem c6_witness :
    pathValueFilters (some "a.b.c") (some "v") =
      .ok [.astextEq (JCol.index (JCol.index JCol.data "a") "b") "c" "v"] :=
  c6_path_value_filter_amended "a.b.c" "v" (by decide) (by decide) (by decide)
    (by decide)

/-- A 1001-character value, exceeding `MAX_JSON_VALUE_LENGTH`. -/
def longValue : String := String.mk (List.replicate 1001 'x')

lemma longValue_length : longValue.length = 1001 := by
  show (List.replicate 1001 'x').length = 1001
  rw [List.length_replicate]

/-- C7, counterexample.  The claim quantifies over every request supplying
both `json_path` and `json_value` with a `json_value` longer than 1000
characters; supplying `json_path` as the empty string falsifies it: the pair
block is skipped, no length check runs, and the request succeeds instead of
being rejected with the value-too-long error. -/
theorem c7_counterexample :
    read_entities ⟨0, 100, some "", some longValue, none, none⟩ =
        .ok ⟨[], 0, 100⟩ ∧
      longValue.length > 1000 := by
  refine ⟨rfl, ?_⟩
  rw [longValue_length]
  omega

/-- C7 (amended): for every request supplying both `json_path` and
`json_value`, where `json_path` is non-empty and passes validation and
`json_value` exceeds 1000 characters, the request is rejected with the
client-facing 400 error "JSON value too long". -/
theorem c7_value_too_long_amended (p : ListParams) (jp jv : String)
    (hp : p.json_path = some jp) (hv : p.json_value = some jv)
    (hjp : jp ≠ "") (hval : validate_json_path jp = true)
    (hlen : jv.length > 1000) :
    read_entities p = .error ⟨400, "JSON value too long"⟩ := by
  have hjv : jv ≠ "" := by
    intro h
    rw [h] at hlen
    exact absurd hlen (by decide)
  have hpv : pathValueFilters (some jp) (some jv) =
      .error ⟨400, "JSON value too long"⟩ := by
    simp [pathValueFilters, truthy_some hjp, truthy_some hjv, hval,
      MAX_JSON_VALUE_LENGTH, hlen]
  simp only [read_entities, read_entities_filters, hp, hv, hpv]

theorem c7_witness :
    read_entities ⟨0, 100, some "a", some longValue, none, none⟩ =
      .error ⟨400, "JSON value too long"⟩ :=
  c7_value_too_long_amended _ "a" longValue rfl rfl (by decide) (by decide)
    (by rw [longValue_length]; omega)

/-- C8: a successful update of an existing entity replaces only the row's
`created_by` and `data`; its `id` and `created_at` are unchanged, and every
row with a different id is unchanged. -/
theorem c8_update_frame (db : List StoredEntity) (entity_id : Int)
    (u : EntityCreate) (db' : List StoredEntity) (ret : StoredEntity)
    (h : update_entity db entity_id u = .ok (db', ret)) :
    db'.length = db.length ∧
    ∀ (i : Nat) (hi : i < db.length) (hi' : i < db'.length),
      (((db.get ⟨i, hi⟩).id = entity_id →
        (db'.get ⟨i, hi'⟩).id = (db.get ⟨i, hi⟩).id ∧
        (db'.get ⟨i, hi'⟩).created_at = (db.get ⟨i, hi⟩).created_at ∧
        (db'.get ⟨i, hi'⟩).created_by = u.created_by ∧
        (db'.get ⟨i, hi'⟩).data = u.data) ∧
      ((db.get ⟨i, hi⟩).id ≠ entity_id →
        db'.get ⟨i, hi'⟩ = db.get ⟨i, hi⟩)) := by
  simp only [update_entity] at h
  split at h
  · exact Except.noConfusion h
  · rename_i e hfind
    have hpair := Except.ok.inj h
    have hdb : db.map (fun x =>
        if x.id == entity_id then
          { x with created_by := u.created_by, data := u.data }
        else x) = db' := congrArg Prod.fst hpair
    subst hdb
    constructor
    · simp
    · intro i hi hi'
      constructor
      · intro hid
        simp only [List.get_eq_getElem, List.getElem_map] at hid ⊢
        simp [hid]
      · intro hid
        simp only [List.get_eq_getElem, List.getElem_map] at hid ⊢
        simp [hid]

/-- A two-row table used to exercise `update_entity`. -/
def db0 : List StoredEntity :=
  [⟨1, 10, "alice", PyJson.null⟩, ⟨2, 20, "bob", PyJson.null⟩]

theorem c8_witness :
    ([⟨1, 10, "carol", PyJson.bool true⟩, ⟨2, 20, "bob", PyJson.null⟩] :
      List StoredEntity).length = db0.length :=
  (c8_update_frame db0 1 ⟨"carol", PyJson.bool true⟩
    [⟨1, 10, "carol", PyJson.bool true⟩, ⟨2, 20, "bob", PyJson.null⟩]
    ⟨1, 10, "carol", PyJson.bool true⟩ rfl).1

theorem c3_witness :
    read_entities ⟨0, 100, some "not a valid path!", none, none, none⟩ =
      .ok ⟨[], 0, 100⟩ :=
  (c3_lone_path_or_value_skipped
    ⟨0, 100, some "not a valid path!", none, none, none⟩
    (Or.inl ⟨by simp, rfl⟩)).2 rfl rfl

theorem c5_witness :
    (⟨400, "Invalid JSON path format"⟩ : HErr).status_code = 400 :=
  ((c5_no_partial_filter_application ⟨0, 100, some "!", some "v", none, none⟩).1
    ⟨400, "Invalid JSON path format"⟩ rfl).1

theorem c9_witness : (json_loads "[1, 2, 3]").isSome = true :=
  c9_contains_reparse_never_fails.1 "[1, 2, 3]" (by decide)
